import Mathlib

/-!
Verification of the VastAIBot state-reconciliation engine (src/VastAIBot.py).

The embedding models the pure decision core of `VastAIBot.process_account`,
`VastAIBot.monitor_servers`, `VastAIBot.escape_markdown` and
`VastAIBot.send_telegram_message`.  I/O collaborators (HTTP fetches, the
Telegram bot, InfluxDB, the JSON files) appear as explicit inputs and
outputs: fetched machine payloads are `RawServer` values, the persisted
status map is threaded explicitly, telemetry writes and the emitted report
are returned as data.

Numeric machine fields (Python floats) are modelled as rationals: every
comparison in the source is exact equality (no arithmetic on the compared
values happens between fetch and compare), so equality on an exact number
type mirrors equality on the source's floats.  Decimal rendering
(`f"{x:.2f}"` and friends) is modelled by `fmtFixed`/`pyStr`; the exact
digit strings are not load-bearing for any property proved here, and the
rendering of negative values approximates Python's (the source only ever
renders non-negative monetary values).  The emoji literals in the source
file are encoding-corrupted (UTF-8 read as cp1254 and re-encoded, with
unmappable bytes dropped); the string constants below restore the intended
glyphs where recoverable from the surviving bytes, and substitute a fixed
placeholder glyph where the original is unrecoverable.  No property proved
here depends on the identity of any glyph.
-/

namespace VastAIBot

/-- Number of occurrences of character `c` in `s`; models Python
`str.count` for a single-character needle (src line 254). -/
def countChar (s : String) (c : Char) : Nat :=
  (s.toList.filter fun x => x == c).length

/-- Models Python `str.replace(" ", "")` (src line 293). -/
def removeSpaces (s : String) : String :=
  String.mk (s.toList.filter fun c => c != ' ')

/-- Floor of a rational as an integer (via floor division of numerator by
denominator).  Used only for decimal rendering. -/
def ratFloorInt (q : ℚ) : Int :=
  Int.fdiv q.num (Int.ofNat q.den)

/-- Fixed-point decimal rendering with `prec` fraction digits; models the
Python format specifier `:.{prec}f`.  (Python rounds the underlying binary
float half-to-even; this model rounds half-up.  No claim depends on the
digits produced.) -/
def fmtFixed (prec : Nat) (q : ℚ) : String :=
  let n : Int := ratFloorInt (q * (10 : ℚ) ^ prec + 1 / 2)
  let a : Nat := n.natAbs
  let base : Nat := 10 ^ prec
  let ip : Nat := a / base
  let fpart : Nat := a % base
  let fs : String := toString fpart
  let pad : String := String.mk (List.replicate (prec - fs.length) '0')
  (if n < 0 then "-" else "") ++ toString ip ++ "." ++ pad ++ fs

/-- Bare rendering of a numeric value, modelling Python's `str(float)`
inside an f-string (src lines 317, 311).  Digit strings are not
load-bearing. -/
def pyStr (q : ℚ) : String :=
  if q.den = 1 then toString q.num else toString q.num ++ "/" ++ toString q.den

/-- One fetched machine payload, after the per-field `get`-with-default
parsing of src lines 229-251.  `verification` is kept optional because the
source reads it with `server.get("verification", "None")` (src line 249):
`none` models a payload without the key. -/
structure RawServer where
  id : Int
  listed : Bool
  current_rentals_running : Nat
  current_rentals_resident : Nat
  reliability2 : ℚ
  num_gpus : Nat
  earn_hour : ℚ
  earn_day : ℚ
  gpu_occupancy : String
  num_reports : Nat
  verification : Option String
  min_bid_price : ℚ
  listed_gpu_cost : ℚ
  listed_storage_cost : ℚ
  listed_min_gpu_count : Nat
  listed_inet_down_cost : ℚ
  listed_inet_up_cost : ℚ
deriving DecidableEq

/-- One persisted status-map entry, exactly the record written at src
lines 345-364.  All fields other than `verification` are always written by
that code, so they are modelled as present; the `or`-defaults applied when
reading them back (src lines 276-284) collapse because each default equals
the corresponding falsy value.  `verification` is optional: the source
reads it with `old_data.get("verification", "")` (src line 285), and a
status file written by an older revision may lack the key. -/
structure PrevEntry where
  rented : Bool
  rented_gpus : Nat
  listed_gpu_cost : ℚ
  listed_storage_cost : ℚ
  min_bid_price : ℚ
  listed_min_gpu_count : Nat
  earn_hour : ℚ
  earn_day : ℚ
  reliability : ℚ
  num_reports : Nat
  gpu_occupancy : String
  listed_inet_down_cost : ℚ
  listed_inet_up_cost : ℚ
  running : Nat
  resident : Nat
  verification : Option String
deriving DecidableEq

/-- The persisted status map (`self.previous_status`), keyed by the string
form of the machine id, as an insertion-ordered association list modelling
a Python dict. -/
abbrev StatusMap := List (String × PrevEntry)

/-- Python `dict.get(key)` on the status map (src line 274). -/
def lookupStatus : StatusMap → String → Option PrevEntry
  | [], _ => none
  | (k, v) :: rest, key => if k == key then some v else lookupStatus rest key

/-- Python `dict[key] = value` on the status map (src line 345): replaces
in place when the key exists, appends otherwise. -/
def insertStatus : StatusMap → String → PrevEntry → StatusMap
  | [], key, v => [(key, v)]
  | (k, w) :: rest, key, v =>
      if k == key then (key, v) :: rest else (k, w) :: insertStatus rest key v

/-- Src line 198: `first_run = False if self.previous_status else True` —
truthiness of the in-memory status map at the moment `process_account`
starts. -/
def firstRunOf (prev : StatusMap) : Bool := prev.isEmpty

/-- The change-event categories of the Field Change Detector, one per
comparison block of src lines 289-340, in source order. -/
inductive ChangeCategory
  | rentalTransition
  | priceChange
  | storageChange
  | capacityChange
  | bidChange
  | inetDownChange
  | inetUpChange
  | reportsChange
  | verificationChange
deriving DecidableEq

/-- A detected change: its field-group category and the rendered line the
source appends to `changes_lines`. -/
structure ChangeEvent where
  category : ChangeCategory
  line : String
deriving DecidableEq

/-- The events of one category, in order. -/
def eventsOfCategory (cat : ChangeCategory) (events : List ChangeEvent) : List ChangeEvent :=
  events.filter fun e => decide (e.category = cat)

/-- The status-map entry derived from a fetched payload, combining the
field derivations of src lines 233-263 with the record written at src
lines 345-364.  In particular (src lines 253-262): when listed, the
rented-GPU count is the number of occupancy-string characters equal to
a demand-rented or interruptible-rented marker, and the listed-cost
fields are taken from the payload; when unlisted, the rented-GPU count is
the raw running-rental count and the listed-cost fields keep their zero
initialisation (src lines 242-247).  `min_bid_price` is read
unconditionally (src line 251). -/
def deriveSnapshot (s : RawServer) : PrevEntry :=
  let running := s.current_rentals_running
  { rented := decide (running > 0),
    rented_gpus :=
      if s.listed then countChar s.gpu_occupancy 'D' + countChar s.gpu_occupancy 'I'
      else running,
    listed_gpu_cost := if s.listed then s.listed_gpu_cost else 0,
    listed_storage_cost := if s.listed then s.listed_storage_cost else 0,
    min_bid_price := s.min_bid_price,
    listed_min_gpu_count := if s.listed then s.listed_min_gpu_count else 0,
    earn_hour := s.earn_hour,
    earn_day := s.earn_day,
    reliability := s.reliability2,
    num_reports := s.num_reports,
    gpu_occupancy := s.gpu_occupancy,
    listed_inet_down_cost := if s.listed then s.listed_inet_down_cost else 0,
    listed_inet_up_cost := if s.listed then s.listed_inet_up_cost else 0,
    running := running,
    resident := s.current_rentals_resident,
    verification := some (s.verification.getD "None") }

/-- Src lines 266, 287: `f"{rented_gpus}/{num_gpus}"`. -/
def gpuStatusStr (r n : Nat) : String := toString r ++ "/" ++ toString n

/-- The per-entity status line, src lines 260-272. -/
def serverLine (s : RawServer) : String :=
  let n := deriveSnapshot s
  let status_str := if n.rented then "✅" else "❌"
  let price_info :=
    if s.listed then
      "💵" ++ fmtFixed 2 n.listed_gpu_cost ++ " " ++ fmtFixed 2 n.min_bid_price
        ++ " " ++ fmtFixed 2 n.listed_storage_cost
    else "❌ NotList ❌"
  let reliability_info := "🎯" ++ fmtFixed 2 (n.reliability * 100) ++ "%"
  let running_info :=
    (if n.resident > 0 then "🗄️" ++ toString n.resident else "")
      ++ (if n.rented then "👤" ++ toString n.running else "")
  "🖥️" ++ toString s.id ++ " " ++ status_str ++ gpuStatusStr n.rented_gpus s.num_gpus
    ++ "«" ++ toString n.listed_min_gpu_count ++ " " ++ price_info ++ " "
    ++ reliability_info ++ " " ++ running_info ++ "\n"

/-- Everything after the direction icon in the rental-transition line,
src line 293. -/
def rentalChangeRest (old_data : PrevEntry) (s : RawServer) : String :=
  let n := deriveSnapshot s
  toString s.id ++ " " ++ (if n.rented then "✅" else "❌") ++ " "
    ++ gpuStatusStr old_data.rented_gpus s.num_gpus ++ " » "
    ++ gpuStatusStr n.rented_gpus s.num_gpus ++ " = "
    ++ removeSpaces s.gpu_occupancy ++ "\n"

/-- The rental-transition line, src lines 291-294: direction icon chosen
by `"ramp up" if p_rented_gpus < rented_gpus else "ramp down"`. -/
def rentalChangeLine (old_data : PrevEntry) (s : RawServer) : String :=
  (if old_data.rented_gpus < (deriveSnapshot s).rented_gpus then "🚀" else "🛬")
    ++ rentalChangeRest old_data s

/-- The verification-change line, src line 339. -/
def verificationLine (server_id p_v v : String) : String :=
  "⚠️" ++ server_id ++ " 🔐 verification change, " ++ p_v ++ " » " ++ v ++ "\n"

/-- The Field Change Detector: the comparison blocks of src lines 276-340,
in source order, one event per field group that differs, each comparison
exact equality.  `p_verification` uses default `""` (src line 285) while
the fresh value uses default `"None"` (src line 249). -/
def detectChangesFor (old_data : PrevEntry) (s : RawServer) : List ChangeEvent :=
  let n := deriveSnapshot s
  let server_id := toString s.id
  let p_verification := old_data.verification.getD ""
  let verification := s.verification.getD "None"
  (if old_data.rented ≠ n.rented ∨ old_data.rented_gpus ≠ n.rented_gpus then
    [{ category := ChangeCategory.rentalTransition, line := rentalChangeLine old_data s }]
   else [])
  ++ (if old_data.listed_gpu_cost ≠ n.listed_gpu_cost then
    [{ category := ChangeCategory.priceChange,
       line := "⚠️" ++ server_id ++ " 💰 price change, "
         ++ fmtFixed 4 old_data.listed_gpu_cost ++ "$ » "
         ++ fmtFixed 4 n.listed_gpu_cost ++ "$\n" }]
   else [])
  ++ (if old_data.listed_storage_cost ≠ n.listed_storage_cost then
    [{ category := ChangeCategory.storageChange,
       line := "⚠️" ++ server_id ++ " 💾 price change, "
         ++ fmtFixed 4 old_data.listed_storage_cost ++ "$ » "
         ++ fmtFixed 4 n.listed_storage_cost ++ "$\n" }]
   else [])
  ++ (if old_data.listed_min_gpu_count ≠ n.listed_min_gpu_count then
    [{ category := ChangeCategory.capacityChange,
       line := "⚠️" ++ server_id ++ " 🐏 min gpu change, "
         ++ toString old_data.listed_min_gpu_count ++ " » "
         ++ toString n.listed_min_gpu_count ++ "\n" }]
   else [])
  ++ (if old_data.min_bid_price ≠ n.min_bid_price then
    [{ category := ChangeCategory.bidChange,
       line := "⚠️" ++ server_id ++ " 🪫 min bid change, "
         ++ pyStr old_data.min_bid_price ++ " » " ++ pyStr n.min_bid_price ++ "\n" }]
   else [])
  ++ (if old_data.listed_inet_down_cost ≠ n.listed_inet_down_cost then
    [{ category := ChangeCategory.inetDownChange,
       line := "⚠️" ++ server_id ++ " 🐌 inet down change, "
         ++ fmtFixed 2 (old_data.listed_inet_down_cost * 1024) ++ "$ » "
         ++ fmtFixed 2 (n.listed_inet_down_cost * 1024) ++ "$\n" }]
   else [])
  ++ (if old_data.listed_inet_up_cost ≠ n.listed_inet_up_cost then
    [{ category := ChangeCategory.inetUpChange,
       line := "⚠️" ++ server_id ++ " 🐌 inet up change, "
         ++ fmtFixed 2 (old_data.listed_inet_up_cost * 1024) ++ "$ » "
         ++ fmtFixed 2 (n.listed_inet_up_cost * 1024) ++ "$\n" }]
   else [])
  ++ (if old_data.num_reports ≠ n.num_reports then
    [{ category := ChangeCategory.reportsChange,
       line := "⚠️" ++ server_id ++ " 🚨 num reports change, "
         ++ toString old_data.num_reports ++ " » " ++ toString n.num_reports ++ "\n" }]
   else [])
  ++ (if p_verification ≠ verification then
    [{ category := ChangeCategory.verificationChange,
       line := verificationLine server_id p_verification verification }]
   else [])

/-- The mutable per-account loop state of `process_account`
(src lines 200-204): the in-memory status map, the telemetry writes issued
so far (account name, server id), and the accumulated lines/flag. -/
structure AccState where
  status : StatusMap
  telemetry : List (String × String)
  account_lines : List String
  changes_lines : List String
  changes_detected : Bool

/-- The body of one loop iteration of src lines 228-371 once the entity
has passed the monitored-id filter, dispatched on the `old_data` lookup
result: compare (when an old snapshot exists; its absence alone sets
`changes_detected`, src lines 342-343), write the refreshed entry back
unconditionally (src line 345), send its telemetry (src line 367) and
append the status line (src line 371). -/
def processServerWithOld (account_name : String) (st : AccState) (s : RawServer) :
    Option PrevEntry → AccState
  | some old_data =>
      let events := detectChangesFor old_data s
      { status := insertStatus st.status (toString s.id) (deriveSnapshot s),
        telemetry := st.telemetry ++ [(account_name, toString s.id)],
        account_lines := st.account_lines ++ [serverLine s],
        changes_lines := st.changes_lines ++ events.map fun e => e.line,
        changes_detected := st.changes_detected || !events.isEmpty }
  | none =>
      { status := insertStatus st.status (toString s.id) (deriveSnapshot s),
        telemetry := st.telemetry ++ [(account_name, toString s.id)],
        account_lines := st.account_lines ++ [serverLine s],
        changes_lines := st.changes_lines,
        changes_detected := true }

/-- Processing of a passed entity (src lines 229-371 minus the filter). -/
def processServerBody (account_name : String) (st : AccState) (s : RawServer) : AccState :=
  processServerWithOld account_name st s (lookupStatus st.status (toString s.id))

/-- One loop iteration of src lines 228-371 including the monitored-id
filter of src lines 230-231: `if not all_server and int(server_id) not in
server_ids: continue`. -/
def processServer (account_name : String) (server_ids : List Int) (all_server : Bool)
    (st : AccState) (s : RawServer) : AccState :=
  if !all_server && !(server_ids.contains s.id) then st
  else processServerBody account_name st s

/-- The full entity loop of `process_account` (src lines 226-371), with
`all_server = -1 in server_ids` (src line 226). -/
def processAccountCore (prev : StatusMap) (account_name : String)
    (server_ids : List Int) (servers : List RawServer) : AccState :=
  servers.foldl (processServer account_name server_ids (server_ids.contains (-1)))
    { status := prev, telemetry := [], account_lines := [], changes_lines := [],
      changes_detected := false }

/-- The account header line, src line 379. -/
def reportHeader (account_name : String) (balance machine_earnings : ℚ) : String :=
  "👤 " ++ account_name ++ " 💰 " ++ fmtFixed 2 balance ++ "$ 🏦 "
    ++ fmtFixed 2 machine_earnings ++ "$\n\n"

/-- The observable outcome of one `process_account` call: the updated
status map, the telemetry writes, and the report message sent to the
notification sink (none when suppressed). -/
structure AccountResult where
  status : StatusMap
  telemetry : List (String × String)
  message : Option String

/-- `process_account` (src lines 192-387) as a function of its fetched
inputs: balance, machine earnings and machine list are collaborator
results passed in explicitly.  Report assembly follows src lines 373-387:
a trailing blank-line separator is appended to `changes_lines` when any
exist (src lines 373-374), and a single message — header, change lines,
status lines — is emitted iff `(first_run or changes_detected) and
account_lines` (src line 376). -/
def processAccount (prev : StatusMap) (account_name : String)
    (balance machine_earnings : ℚ) (server_ids : List Int)
    (servers : List RawServer) : AccountResult :=
  let first_run := firstRunOf prev
  let st := processAccountCore prev account_name server_ids servers
  let changes_lines :=
    if st.changes_lines.isEmpty then st.changes_lines else st.changes_lines ++ ["\n"]
  if (first_run || st.changes_detected) && !st.account_lines.isEmpty then
    { status := st.status, telemetry := st.telemetry,
      message := some (reportHeader account_name balance machine_earnings
        ++ String.join changes_lines ++ String.join st.account_lines) }
  else
    { status := st.status, telemetry := st.telemetry, message := none }

/-- The fetched data for one configured account within one cycle: its
name, monitored-id set, and the collaborator results the cycle obtains
for it. -/
structure AccountFetch where
  name : String
  server_ids : List Int
  balance : ℚ
  machine_earnings : ℚ
  servers : List RawServer

/-- Externally visible steps of one polling cycle (src lines 397-403):
processing an account, the fixed inter-account `asyncio.sleep(2)`
(src line 401), and the status-map save (src line 403). -/
inductive CycleAction
  | processAcc (account_name : String)
  | interDelay
  | saveStatus
deriving DecidableEq

/-- The result of one polling cycle: final status map, the `first_run`
value each `process_account` call observed, the action trace, and the
per-account emitted messages. -/
structure CycleResult where
  status : StatusMap
  flags : List (String × Bool)
  actions : List CycleAction
  messages : List (String × Option String)

/-- One iteration of the account loop, src lines 397-401: process the
account against the current in-memory status map, then sleep. -/
def cycleStep (r : CycleResult) (a : AccountFetch) : CycleResult :=
  let res := processAccount r.status a.name a.balance a.machine_earnings
    a.server_ids a.servers
  { status := res.status,
    flags := r.flags ++ [(a.name, firstRunOf r.status)],
    actions := r.actions ++ [CycleAction.processAcc a.name, CycleAction.interDelay],
    messages := r.messages ++ [(a.name, res.message)] }

/-- One polling cycle over the configured accounts, src lines 397-403:
the account loop followed by the status-map save. -/
def runCycle (prev : StatusMap) (accounts : List AccountFetch) : CycleResult :=
  let r := accounts.foldl cycleStep
    { status := prev, flags := [], actions := [], messages := [] }
  { r with actions := r.actions ++ [CycleAction.saveStatus] }

/-- Consecutive polling cycles (the `while` loop of src lines 392-413) in
the closed model where the status file round-trips: the map saved at the
end of one cycle is the map loaded at the start of the next
(src lines 394, 403). -/
def runCycles (prev : StatusMap) : List (List AccountFetch) → List CycleResult
  | [] => []
  | c :: cs =>
      let r := runCycle prev c
      r :: runCycles r.status cs

/-- Src line 75: the characters `escape_markdown` escapes. -/
def escapeChars : String := "_*[]()~`>#|+-=\x7b\x7d.!"

/-- Left-to-right scan of `re.sub(f"([{...}])", r"\\\1", text)`
(src line 76): each matched character is replaced by a backslash followed
by itself. -/
def escapeList : List Char → List Char
  | [] => []
  | c :: cs =>
      if escapeChars.toList.contains c then '\\' :: c :: escapeList cs
      else c :: escapeList cs

/-- `escape_markdown` (src lines 73-76). -/
def escape_markdown (text : String) : String :=
  String.mk (escapeList text.toList)

/-- `send_telegram_message` (src lines 78-93) as the list of
(recipient, text) pairs handed to the bot: the recipient set is the
deduplicated chat-id list, and each message text is escaped before
dispatch (src line 88). -/
def send_telegram_message (message : String) (chat_ids : List Int) :
    List (Int × String) :=
  chat_ids.eraseDups.map fun chat_id => (chat_id, escape_markdown message)

/-- Restated from the claim's words, for comparison with the source's
`escape_markdown`: each occurrence of a character from the fixed
punctuation set is replaced by that character preceded by a backslash,
and all characters outside the set are left unchanged. -/
def escapeSpec (text : String) : String :=
  String.mk
    ((text.toList.map fun c =>
      if escapeChars.toList.contains c then ['\\', c] else [c]).flatten)

/-- The outcome of one execution of the cycle-loop body of
`monitor_servers` (src lines 393-413): it either completes or raises an
unexpected fault carrying an error description. -/
inductive CycleOutcome
  | completes
  | raises (err : String)
deriving DecidableEq

/-- The `while not self.shutdown_event.is_set()` loop of src
lines 392-413 over a finite schedule of body outcomes (the schedule
ending models the shutdown signal): the loop has no exception handler, so
the first raising body aborts it with that error. -/
def monitorLoop : List CycleOutcome → Except String Unit
  | [] => Except.ok ()
  | CycleOutcome.completes :: rest => monitorLoop rest
  | CycleOutcome.raises e :: _ => Except.error e

/-- Externally visible lifecycle steps of `monitor_servers` and `main`
(src lines 389-432). -/
inductive ProcAction
  | sendStartup
  | closeSession
  | sendShutdown
deriving DecidableEq

/-- `monitor_servers` (src lines 389-415): `try: while ... finally:
session.close()` — there is no `except` clause, so the session is closed
and any error propagates to the caller. -/
def monitor_servers (outcomes : List CycleOutcome) :
    List ProcAction × Except String Unit :=
  ([ProcAction.closeSession], monitorLoop outcomes)

/-- `main` (src lines 421-432): startup notification, then
`try: await self.monitor_servers() finally: <shutdown notification>` —
again no `except` clause, so after the finally-notification any error
propagates and ends the process. -/
def mainRun (outcomes : List CycleOutcome) :
    List ProcAction × Except String Unit :=
  let m := monitor_servers outcomes
  (ProcAction.sendStartup :: m.1 ++ [ProcAction.sendShutdown], m.2)

/-- A concrete unlisted machine with one running rental. -/
def srvA : RawServer :=
  { id := 101, listed := false, current_rentals_running := 1,
    current_rentals_resident := 0, reliability2 := 0, num_gpus := 4,
    earn_hour := 0, earn_day := 0, gpu_occupancy := "", num_reports := 0,
    verification := none, min_bid_price := 0, listed_gpu_cost := 0,
    listed_storage_cost := 0, listed_min_gpu_count := 0,
    listed_inet_down_cost := 0, listed_inet_up_cost := 0 }

/-- A second concrete machine with a distinct id. -/
def srvB : RawServer :=
  { srvA with id := 202, current_rentals_running := 0 }

/-- Account "A" monitoring all machines, fetching `srvA`. -/
def acctA : AccountFetch :=
  { name := "A", server_ids := [-1], balance := 0, machine_earnings := 0,
    servers := [srvA] }

/-- Account "B" monitoring all machines, fetching `srvB`. -/
def acctB : AccountFetch :=
  { name := "B", server_ids := [-1], balance := 0, machine_earnings := 0,
    servers := [srvB] }

/-- Account "E" whose machine fetch returns no machines. -/
def acctE : AccountFetch :=
  { name := "E", server_ids := [-1], balance := 0, machine_earnings := 0,
    servers := [] }

/-- The snapshot entry `srvA` derives. -/
def entryA : PrevEntry := deriveSnapshot srvA

/-- A loop state whose status map already holds `srvA`'s own snapshot. -/
def stA : AccState :=
  { status := [(toString srvA.id, entryA)], telemetry := [],
    account_lines := [], changes_lines := [], changes_detected := false }

/-- A legacy status-map entry for `srvA` lacking the verification key, as
written by a source revision that did not persist `verification`. -/
def legacyEntryA : PrevEntry := { entryA with verification := none }

theorem lookupStatus_insertStatus_self (m : StatusMap) (k : String) (v : PrevEntry) :
    lookupStatus (insertStatus m k v) k = some v := by
  induction m with
  | nil => simp [insertStatus, lookupStatus]
  | cons hd t ih =>
      obtain ⟨k1, w⟩ := hd
      simp only [insertStatus]
      cases hbe : (k1 == k) with
  | false => simp [lookupStatus, hbe, ih]
  | true => simp [lookupStatus]

theorem insertStatus_ne_nil (m : StatusMap) (k : String) (v : PrevEntry) :
    insertStatus m k v ≠ [] := by
  cases m with
  | nil => simp [insertStatus]
  | cons hd t =>
      obtain ⟨k1, w⟩ := hd
      simp only [insertStatus]
      split <;> simp

theorem processServerBody_status (account_name : String) (st : AccState) (s : RawServer) :
    (processServerBody account_name st s).status
      = insertStatus st.status (toString s.id) (deriveSnapshot s) := by
  cases h : lookupStatus st.status (toString s.id) <;>
    simp [processServerBody, processServerWithOld, h]

theorem processServerBody_telemetry (account_name : String) (st : AccState) (s : RawServer) :
    (processServerBody account_name st s).telemetry
      = st.telemetry ++ [(account_name, toString s.id)] := by
  cases h : lookupStatus st.status (toString s.id) <;>
    simp [processServerBody, processServerWithOld, h]

theorem processServerBody_account_lines (account_name : String) (st : AccState) (s : RawServer) :
    (processServerBody account_name st s).account_lines
      = st.account_lines ++ [serverLine s] := by
  cases h : lookupStatus st.status (toString s.id) <;>
    simp [processServerBody, processServerWithOld, h]

theorem foldl_processServer_telemetry (account_name : String) (server_ids : List Int)
    (all_server : Bool) :
    ∀ (servers : List RawServer) (init : AccState),
      ((servers.foldl (processServer account_name server_ids all_server) init).telemetry
        = init.telemetry
          ++ ((servers.filter fun s => all_server || server_ids.contains s.id).map
                fun s => (account_name, toString s.id))) := by
  intro servers
  induction servers with
  | nil => intro init; simp
  | cons s ss ih =>
      intro init
      simp only [List.foldl_cons, List.filter_cons]
      rw [ih]
      by_cases hm : s.id ∈ server_ids <;> cases hall : all_server <;>
        simp [processServer, hall, hm, processServerBody_telemetry]

theorem foldl_processServer_account_lines (account_name : String) (server_ids : List Int)
    (all_server : Bool) :
    ∀ (servers : List RawServer) (init : AccState),
      ((servers.foldl (processServer account_name server_ids all_server) init).account_lines
        = init.account_lines
          ++ ((servers.filter fun s => all_server || server_ids.contains s.id).map
                serverLine)) := by
  intro servers
  induction servers with
  | nil => intro init; simp
  | cons s ss ih =>
      intro init
      simp only [List.foldl_cons, List.filter_cons]
      rw [ih]
      by_cases hm : s.id ∈ server_ids <;> cases hall : all_server <;>
        simp [processServer, hall, hm, processServerBody_account_lines]

theorem foldl_processServer_status_ne_nil (account_name : String) (server_ids : List Int)
    (all_server : Bool) :
    ∀ (servers : List RawServer) (init : AccState), init.status ≠ [] →
      (servers.foldl (processServer account_name server_ids all_server) init).status ≠ [] := by
  intro servers
  induction servers with
  | nil => intro init h; simpa using h
  | cons s ss ih =>
      intro init h
      simp only [List.foldl_cons]
      apply ih
      unfold processServer
      split
      · exact h
      · rw [processServerBody_status]
        exact insertStatus_ne_nil _ _ _

theorem eventsOfCategory_append (cat : ChangeCategory) (a b : List ChangeEvent) :
    eventsOfCategory cat (a ++ b) = eventsOfCategory cat a ++ eventsOfCategory cat b := by
  simp [eventsOfCategory, List.filter_append]

theorem eventsOfCategory_ite (cat : ChangeCategory) (c : Prop) [Decidable c] (e : ChangeEvent) :
    eventsOfCategory cat (if c then [e] else [])
      = if c then eventsOfCategory cat [e] else [] := by
  split <;> rfl

theorem eventsOfCategory_singleton (cat : ChangeCategory) (e : ChangeEvent) :
    eventsOfCategory cat [e] = if e.category = cat then [e] else [] := by
  by_cases h : e.category = cat <;>
    simp [eventsOfCategory, List.filter_cons, h]

theorem escapeList_eq_flatten : ∀ l : List Char,
    escapeList l
      = (l.map fun c => if escapeChars.toList.contains c then ['\\', c] else [c]).flatten := by
  intro l
  induction l with
  | nil => rfl
  | cons c cs ih =>
      simp only [escapeList, List.map_cons, List.flatten_cons]
      cases h : escapeChars.toList.contains c <;> simp [h, ih]

/-- C3: for every entity whose old snapshot exists and is field-wise
identical to the freshly derived snapshot, the Detector produces zero
change events (every comparison is exact equality), and the loop body
appends no change line and leaves the changes flag unchanged. -/
theorem identical_snapshot_no_changes (account_name : String) (st : AccState) (s : RawServer)
    (h : lookupStatus st.status (toString s.id) = some (deriveSnapshot s)) :
    detectChangesFor (deriveSnapshot s) s = []
      ∧ (processServerBody account_name st s).changes_lines = st.changes_lines
      ∧ (processServerBody account_name st s).changes_detected = st.changes_detected := by
  have hd : detectChangesFor (deriveSnapshot s) s = [] := by
    simp [detectChangesFor, deriveSnapshot]
  refine ⟨hd, ?_, ?_⟩ <;>
    simp [processServerBody, processServerWithOld, h, hd]

/-- Witness for C3 at a concrete machine whose own snapshot is already in
the status map. -/
theorem identical_snapshot_no_changes_witness :
    detectChangesFor (deriveSnapshot srvA) srvA = []
      ∧ (processServerBody "A" stA srvA).changes_lines = stA.changes_lines
      ∧ (processServerBody "A" stA srvA).changes_detected = stA.changes_detected :=
  identical_snapshot_no_changes "A" stA srvA (by decide)

/-- C4: with an old snapshot present, a rental-transition event is emitted
exactly when the rented flag or the rented-GPU count differs, and its
direction icon is the ramp-up rocket precisely when the new rented-GPU
count strictly exceeds the old one, the ramp-down plane otherwise
(including the boundary case of equal counts with differing flags). -/
theorem rental_transition_event_shape (old_data : PrevEntry) (s : RawServer) :
    eventsOfCategory ChangeCategory.rentalTransition (detectChangesFor old_data s)
        = (if old_data.rented ≠ (deriveSnapshot s).rented
              ∨ old_data.rented_gpus ≠ (deriveSnapshot s).rented_gpus
           then [{ category := ChangeCategory.rentalTransition,
                   line := rentalChangeLine old_data s }]
           else [])
      ∧ rentalChangeLine old_data s
        = (if old_data.rented_gpus < (deriveSnapshot s).rented_gpus then "🚀" else "🛬")
            ++ rentalChangeRest old_data s := by
  constructor
  · simp only [detectChangesFor, eventsOfCategory_append, eventsOfCategory_ite,
      eventsOfCategory_singleton]
    simp
  · rfl

/-- C5: the refreshed snapshot stored for a processed entity is retrievable
under the entity's id, and its rented-GPU count is the occupancy-string
count of demand-rented and interruptible-rented markers when listed, the
raw running-rental count when unlisted. -/
theorem rented_gpu_count_derivation (account_name : String) (st : AccState) (s : RawServer) :
    lookupStatus (processServerBody account_name st s).status (toString s.id)
        = some (deriveSnapshot s)
      ∧ (deriveSnapshot s).rented_gpus
        = (if s.listed then countChar s.gpu_occupancy 'D' + countChar s.gpu_occupancy 'I'
           else s.current_rentals_running) := by
  constructor
  · rw [processServerBody_status]
    exact lookupStatus_insertStatus_self _ _ _
  · rfl

/-- C8: the per-entity loop iteration is the filter of src lines 230-231:
when the sentinel `-1` is among the monitored ids, or the entity's id is an
exact member, the body runs; otherwise the iteration is the identity on
the loop state — no comparison, no status-map change, no telemetry, no
status or change line. -/
theorem monitored_id_filter_semantics (account_name : String) (server_ids : List Int)
    (st : AccState) (s : RawServer) :
    processServer account_name server_ids (server_ids.contains (-1)) st s
      = (if server_ids.contains (-1) || server_ids.contains s.id
         then processServerBody account_name st s
         else st) := by
  by_cases h1 : (-1 : Int) ∈ server_ids <;> by_cases h2 : s.id ∈ server_ids <;>
    simp [processServer, h1, h2]

/-- C9: the text handed to the notification sink for each recipient is the
message with every character of the fixed punctuation set replaced by a
backslash followed by that character, and every other character unchanged
(`escape_markdown` refines the spec-side per-character substitution). -/
theorem escape_markdown_refines_spec (message : String) (chat_ids : List Int) :
    escape_markdown message = escapeSpec message
      ∧ send_telegram_message message chat_ids
        = chat_ids.eraseDups.map fun chat_id => (chat_id, escapeSpec message) := by
  have h : escape_markdown message = escapeSpec message := by
    unfold escape_markdown escapeSpec
    rw [escapeList_eq_flatten]
  exact ⟨h, by simp [send_telegram_message, h]⟩

/-- C10: when the stored entry lacks the verification key and the fetched
payload also lacks the verification field, the asymmetric read defaults
(`""` for the old side, `"None"` for the new side) make the Detector emit
exactly one verification-change event from `""` to `"None"`; the refreshed
entry is persisted with verification `"None"`, so reconciling it against
any later verification-less fetch emits no verification-change event. -/
theorem verification_default_mismatch (old_data : PrevEntry) (s s2 : RawServer)
    (h1 : old_data.verification = none) (h2 : s.verification = none)
    (h3 : s2.verification = none) :
    eventsOfCategory ChangeCategory.verificationChange (detectChangesFor old_data s)
        = [{ category := ChangeCategory.verificationChange,
             line := verificationLine (toString s.id) "" "None" }]
      ∧ (deriveSnapshot s).verification = some "None"
      ∧ eventsOfCategory ChangeCategory.verificationChange
          (detectChangesFor (deriveSnapshot s) s2) = [] := by
  refine ⟨?_, ?_, ?_⟩
  · simp only [detectChangesFor, h1, h2, Option.getD_none, eventsOfCategory_append,
      eventsOfCategory_ite, eventsOfCategory_singleton]
    simp
  · simp [deriveSnapshot, h2]
  · simp only [detectChangesFor, deriveSnapshot, h2, h3, Option.getD_none,
      Option.getD_some, eventsOfCategory_append, eventsOfCategory_ite,
      eventsOfCategory_singleton]
    simp

/-- Witness for C10 at a concrete legacy entry and verification-less
payload. -/
theorem verification_default_mismatch_witness :
    eventsOfCategory ChangeCategory.verificationChange (detectChangesFor legacyEntryA srvA)
        = [{ category := ChangeCategory.verificationChange,
             line := verificationLine (toString srvA.id) "" "None" }]
      ∧ (deriveSnapshot srvA).verification = some "None"
      ∧ eventsOfCategory ChangeCategory.verificationChange
          (detectChangesFor (deriveSnapshot srvA) srvA) = [] :=
  verification_default_mismatch legacyEntryA srvA srvA rfl rfl rfl

/-- C1: for every account reconciliation, a report is emitted iff
`(first-run OR a change was detected) AND at least one entity status line
was produced`; the emitted message is the header followed by all change
lines (with a blank-line separator when any exist) followed by all entity
status lines in fetch order; and independently of that condition the
returned status map is the loop's updated map and telemetry is written for
exactly the entities that passed the filter, in fetch order. -/
theorem report_emission_and_frame (prev : StatusMap) (account_name : String)
    (balance machine_earnings : ℚ) (server_ids : List Int) (servers : List RawServer) :
    ((processAccount prev account_name balance machine_earnings server_ids servers).message.isSome
        = ((firstRunOf prev
              || (processAccountCore prev account_name server_ids servers).changes_detected)
            && !(processAccountCore prev account_name server_ids servers).account_lines.isEmpty))
      ∧ (processAccount prev account_name balance machine_earnings server_ids servers).message
        = (if (firstRunOf prev
                || (processAccountCore prev account_name server_ids servers).changes_detected)
              && !(processAccountCore prev account_name server_ids servers).account_lines.isEmpty
           then some (reportHeader account_name balance machine_earnings
              ++ String.join
                  ((processAccountCore prev account_name server_ids servers).changes_lines
                    ++ (if (processAccountCore prev account_name
                            server_ids servers).changes_lines.isEmpty
                        then [] else ["\n"]))
              ++ String.join
                  (processAccountCore prev account_name server_ids servers).account_lines)
           else none)
      ∧ (processAccount prev account_name balance machine_earnings server_ids servers).status
        = (processAccountCore prev account_name server_ids servers).status
      ∧ (processAccount prev account_name balance machine_earnings server_ids servers).telemetry
        = ((servers.filter fun s => server_ids.contains (-1) || server_ids.contains s.id).map
            fun s => (account_name, toString s.id))
      ∧ (processAccountCore prev account_name server_ids servers).account_lines
        = ((servers.filter fun s => server_ids.contains (-1) || server_ids.contains s.id).map
            serverLine) := by
  have hst : (processAccount prev account_name balance machine_earnings
      server_ids servers).status
      = (processAccountCore prev account_name server_ids servers).status := by
    simp only [processAccount]
    split <;> rfl
  have htel : (processAccount prev account_name balance machine_earnings
      server_ids servers).telemetry
      = (processAccountCore prev account_name server_ids servers).telemetry := by
    simp only [processAccount]
    split <;> rfl
  refine ⟨?_, ?_, hst, ?_, ?_⟩
  · simp only [processAccount]
    split <;> simp_all
  · simp only [processAccount]
    cases hemp : (processAccountCore prev account_name server_ids servers).changes_lines.isEmpty <;>
      split <;> simp_all
  · rw [htel]
    unfold processAccountCore
    rw [foldl_processServer_telemetry]
    simp
  · unfold processAccountCore
    rw [foldl_processServer_account_lines]
    simp

/-- C2 counterexample: `first_run` is recomputed per `process_account`
call from the current in-memory map, so it is determined per account, not
once per process life.  Concretely: with an empty map at process start,
account "A" (one machine) observes `first_run = true` but account "B",
processed later in the same very first cycle, observes `first_run = false`
— although the persisted map was empty at the very start of the process's
life, so the claim would force first-cycle mode for "B" too.  Moreover,
when the first cycle persists no machine (account "E" fetches none), the
second cycle observes `first_run = true` again — first-cycle mode holds
again later in the process's life. -/
theorem first_cycle_mode_counterexample :
    (runCycle [] [acctA, acctB]).flags = [("A", true), ("B", false)]
      ∧ ((runCycles [] [[acctE], [acctA]]).map fun r => r.flags)
        = [[("E", true)], [("A", true)]] := by
  constructor <;> rfl

/-- C2 amended: first-run mode is recomputed at each `process_account`
call as emptiness of the in-memory status map at that moment; and once the
map is non-empty it stays non-empty through any account's reconciliation,
so the mode can never return after any entity has been persisted. -/
theorem first_run_per_invocation (prev : StatusMap) (account_name : String)
    (balance machine_earnings : ℚ) (server_ids : List Int) (servers : List RawServer) :
    (firstRunOf prev = true ↔ prev = [])
      ∧ (prev ≠ [] →
          (processAccount prev account_name balance machine_earnings
            server_ids servers).status ≠ []) := by
  constructor
  · simp [firstRunOf, List.isEmpty_iff]
  · intro hne
    have hst : (processAccount prev account_name balance machine_earnings
        server_ids servers).status
        = (processAccountCore prev account_name server_ids servers).status := by
      simp only [processAccount]
      split <;> rfl
    rw [hst]
    unfold processAccountCore
    exact foldl_processServer_status_ne_nil _ _ _ _ _ hne

/-- Witness for the amended C2 at a concrete non-empty status map. -/
theorem first_run_per_invocation_witness :
    (firstRunOf stA.status = true ↔ stA.status = [])
      ∧ (processAccount stA.status "A" 0 0 [-1] [srvA]).status ≠ [] :=
  ⟨(first_run_per_invocation stA.status "A" 0 0 [-1] [srvA]).1,
   (first_run_per_invocation stA.status "A" 0 0 [-1] [srvA]).2 (by decide)⟩

/-- C6: evaluation of the fault path of `monitor_servers`/`main`
(src lines 389-432): a cycle-loop body raising an unexpected fault is NOT
caught — both wrappers are `try/finally` with no `except` clause — so the
session is closed, the shutdown notification is sent, and the error then
terminates the process; no retry or cooldown happens (`RETRY_TIMEOUT` is
declared at src line 22 but never used). -/
theorem unhandled_fault_terminates_process :
    mainRun [CycleOutcome.raises "KeyError"]
      = ([ProcAction.sendStartup, ProcAction.closeSession, ProcAction.sendShutdown],
          Except.error "KeyError") := rfl

/-- C7 counterexample: with two accounts in a cycle, the action trace
contains the fixed inter-account delay after the LAST account as well —
the `asyncio.sleep(2)` at src line 401 is inside the loop body — so the
status-map save does not immediately follow the last account's
reconciliation, contrary to the claim. -/
theorem delay_after_last_account_counterexample :
    (runCycle [] [acctA, acctB]).actions
        = [CycleAction.processAcc "A", CycleAction.interDelay,
           CycleAction.processAcc "B", CycleAction.interDelay, CycleAction.saveStatus]
      ∧ (runCycle [] [acctA, acctB]).actions
        ≠ [CycleAction.processAcc "A", CycleAction.interDelay,
           CycleAction.processAcc "B", CycleAction.saveStatus] := by
  constructor
  · rfl
  · decide

theorem foldl_cycleStep_actions :
    ∀ (accounts : List AccountFetch) (init : CycleResult),
      (accounts.foldl cycleStep init).actions
        = init.actions
          ++ (accounts.map fun a =>
                [CycleAction.processAcc a.name, CycleAction.interDelay]).flatten := by
  intro accounts
  induction accounts with
  | nil => intro init; simp
  | cons a as ih =>
      intro init
      simp only [List.foldl_cons, List.map_cons, List.flatten_cons]
      rw [ih]
      simp [cycleStep, List.append_assoc]

/-- C7 amended: within one polling cycle, processing of every account —
including the last — is followed by the fixed inter-account delay, and the
status-map save happens after the last account's delay. -/
theorem inter_account_delay_every_account (prev : StatusMap) (accounts : List AccountFetch) :
    (runCycle prev accounts).actions
      = ((accounts.map fun a =>
            [CycleAction.processAcc a.name, CycleAction.interDelay]).flatten)
        ++ [CycleAction.saveStatus] := by
  show (accounts.foldl cycleStep
      { status := prev, flags := [], actions := [], messages := [] }).actions
      ++ [CycleAction.saveStatus] = _
  rw [foldl_cycleStep_actions]
  simp

end VastAIBot
